import Mathlib

/-
Formal model of the banking backend ledger operations.

The Python source (Django models, DRF serializers and Celery tasks) is embedded
shallowly: monetary `Decimal` values become `ℚ`, model rows become structures,
status and type strings are kept verbatim as the source writes them (the source
mixes lowercase model choices such as "completed" with uppercase literals such
as "COMPLETED"; both spellings are preserved because several queries filter on
the exact string).  Fallible serializer paths become `Except String`; a
`.error` result models a raised validation error inside the transactional
block, i.e. no record is created and no balance is mutated.  Opaque generated
identifiers (uuid reference numbers) are modelled as the empty string, matching
the fact that `Transfer.reference_number` is never populated by the code paths
modelled here.
-/

namespace Banking

abbrev Amount := ℚ

/-- A row of `core.models.Currency` (only the fields the ledger paths read). -/
structure Currency where
  code : String
  is_active : Bool
deriving DecidableEq, Repr

/-- A row of `accounts.models.Account` restricted to the fields the ledger
paths read or write: `status`, `balance`, `available_balance`,
`overdraft_limit` and the account currency code.  `accId` stands for the
opaque primary key. -/
structure Account where
  accId : ℕ
  status : String
  balance : Amount
  available_balance : Amount
  overdraft_limit : Amount
  currencyCode : String
deriving DecidableEq, Repr

/-- A row of `transactions.models.Transaction` restricted to the fields the
claims mention.  `currencyCode` is an `Option` because the currency column is
a foreign key some code paths fail to pass (their creates then violate the
schema and raise).  `created_today` abstracts the
`created_at__date=date.today()` filter: it is `true` exactly for rows created
on the current day.  `processed` models `processed_at` being set. -/
structure Txn where
  accId : ℕ
  transaction_type : String
  amount : Amount
  reference_number : String
  balance_before : Amount
  balance_after : Amount
  status : String
  currencyCode : Option String
  created_today : Bool
  notes : String := ""
  processed : Bool := false
deriving DecidableEq, Repr

/-- A row of `transactions.models.Transfer` restricted to the fields the
claims mention.  `to_acc = none` models an external destination. -/
structure TransferRec where
  from_acc : ℕ
  to_acc : Option ℕ
  amount : Amount
  transfer_type : String
  status : String
  transfer_fee : Amount
  reference_number : String
  currencyCode : String
  created_today : Bool
deriving DecidableEq, Repr

/-- `Currency.objects.get(code='USD')` as used by the deposit and withdraw
serializers (`transactions/serializers.py` lines 75 and 153). -/
def findUSD (currencies : List Currency) : Option Currency :=
  currencies.find? (fun c => c.code == "USD")

/-- DRF `DecimalField(max_digits=15, decimal_places=2)` accepts exactly the
rationals with at most two decimal places. -/
def twoDp (a : Amount) : Bool :=
  (a * 100).den == 1

/-- `Account.update_balance` (`accounts/models.py` lines 210-221): mutates
`balance` and `available_balance` together for `credit` and `debit`, and is a
no-op for any other `transaction_type` string. -/
def update_balance (acc : Account) (amount : Amount) (transaction_type : String) : Account :=
  if transaction_type == "credit" then
    { acc with balance := acc.balance + amount,
               available_balance := acc.available_balance + amount }
  else if transaction_type == "debit" then
    { acc with balance := acc.balance - amount,
               available_balance := acc.available_balance - amount }
  else acc

/-- `DepositSerializer` field validation plus `validate_account_id` and
`validate_amount` (`transactions/serializers.py` lines 38-57).  The DRF field
itself enforces two decimal places and `min_value=0.01` before the custom
validators run. -/
def depositValidate (account : Account) (amount : Amount) : Except String Unit :=
  if account.status ≠ "active" then .error "Account not found or inactive"
  else if ¬ twoDp amount then .error "Ensure amount has at most 2 decimal places"
  else if amount < 1/100 then .error "Ensure amount is at least 0.01"
  else if amount ≤ 0 then .error "Amount must be greater than zero"
  else if amount > 1000000 then .error "Amount exceeds maximum limit"
  else .ok ()

/-- `DepositSerializer.create` (`transactions/serializers.py` lines 59-98):
inside one atomic block, look up the USD currency (raising if absent), create
the completed deposit Transaction with the before/after balances, then add the
amount to `balance` only (`update_fields=['balance', 'updated_at']`;
`available_balance` is not written). -/
def depositCreate (currencies : List Currency) (account : Account) (amount : Amount) :
    Except String (Txn × Account) :=
  match findUSD currencies with
  | none => .error "Currency USD does not exist."
  | some usd =>
    let txn : Txn :=
      { accId := account.accId
        transaction_type := "deposit"
        amount := amount
        reference_number := ""
        balance_before := account.balance
        balance_after := account.balance + amount
        status := "completed"
        currencyCode := some usd.code
        created_today := true }
    .ok (txn, { account with balance := account.balance + amount })

/-- The full deposit operation: validation, then the atomic create. -/
def deposit (currencies : List Currency) (account : Account) (amount : Amount) :
    Except String (Txn × Account) :=
  match depositValidate account amount with
  | .error e => .error e
  | .ok _ => depositCreate currencies account amount

/-- The aggregation in `WithdrawSerializer.validate`
(`transactions/serializers.py` lines 125-130): the sum of amounts of this
account's transactions with `transaction_type='DEBIT'`, created today, with
`status='COMPLETED'`.  Note the filter strings: withdrawal transactions are
created with type `"withdrawal"` and status `"completed"`, so they never match
this filter. -/
def withdrawDailyDebits (txns : List Txn) (accId : ℕ) : Amount :=
  ((txns.filter (fun t =>
      t.accId == accId && t.transaction_type == "DEBIT" &&
      t.created_today && t.status == "COMPLETED")).map (fun t => t.amount)).sum

/-- `WithdrawSerializer` validation (`transactions/serializers.py` lines
101-136): active account, field checks, then `balance < amount` (note: the
ledger balance, not `available_balance`, and no overdraft allowance), then the
daily limit check against the hard-coded `Decimal('10000')`. -/
def withdrawValidate (txns : List Txn) (account : Account) (amount : Amount) :
    Except String Unit :=
  if account.status ≠ "active" then .error "Account not found or inactive"
  else if ¬ twoDp amount then .error "Ensure amount has at most 2 decimal places"
  else if amount < 1/100 then .error "Ensure amount is at least 0.01"
  else if account.balance < amount then .error "Insufficient balance"
  else if withdrawDailyDebits txns account.accId + amount > 10000 then
    .error "Daily withdrawal limit exceeded"
  else .ok ()

/-- `WithdrawSerializer.create` (`transactions/serializers.py` lines 138-175):
inside one atomic block, look up USD (raising if absent), create the completed
withdrawal Transaction, then subtract the amount from `balance` only
(`available_balance` is not written). -/
def withdrawCreate (currencies : List Currency) (account : Account) (amount : Amount) :
    Except String (Txn × Account) :=
  match findUSD currencies with
  | none => .error "Currency USD does not exist."
  | some usd =>
    let txn : Txn :=
      { accId := account.accId
        transaction_type := "withdrawal"
        amount := amount
        reference_number := ""
        balance_before := account.balance
        balance_after := account.balance - amount
        status := "completed"
        currencyCode := some usd.code
        created_today := true }
    .ok (txn, { account with balance := account.balance - amount })

/-- The full withdraw operation: validation, then the atomic create. -/
def withdraw (currencies : List Currency) (txns : List Txn) (account : Account)
    (amount : Amount) : Except String (Txn × Account) :=
  match withdrawValidate txns account amount with
  | .error e => .error e
  | .ok _ => withdrawCreate currencies account amount

/-- The aggregation in `InternalTransferSerializer.validate`
(`transactions/serializers.py` lines 220-224): sum of amounts of transfers
from this account created today with `status='COMPLETED'`. -/
def transferDailyTotal (transfers : List TransferRec) (fromId : ℕ) : Amount :=
  ((transfers.filter (fun tr =>
      tr.from_acc == fromId && tr.created_today && tr.status == "COMPLETED")).map
    (fun tr => tr.amount)).sum

/-- `InternalTransferSerializer` validation (`transactions/serializers.py`
lines 192-232): both accounts active, distinct ids, `from_account.balance`
covers the amount, and the hard-coded `Decimal('50000')` daily transfer
limit. -/
def internalTransferValidate (transfers : List TransferRec) (fromA toA : Account)
    (amount : Amount) : Except String Unit :=
  if fromA.status ≠ "active" || toA.status ≠ "active" then
    .error "One or both accounts not found or inactive"
  else if ¬ twoDp amount then .error "Ensure amount has at most 2 decimal places"
  else if amount < 1/100 then .error "Ensure amount is at least 0.01"
  else if fromA.accId == toA.accId then .error "Cannot transfer to the same account"
  else if fromA.balance < amount then .error "Insufficient balance"
  else if transferDailyTotal transfers fromA.accId + amount > 50000 then
    .error "Daily transfer limit exceeded"
  else .ok ()

/-- `InternalTransferSerializer.create` (`transactions/serializers.py` lines
234-289): one atomic block creates the COMPLETED INTERNAL Transfer, a DEBIT
leg on the source account and a CREDIT leg on the destination account (both
copying `transfer.reference_number`), then moves the amount between the two
`balance` fields.  The source stores the destination currency on the debit leg
and the source currency on the credit leg, exactly as the code does.  The
returned list is the complete list of Transactions the block creates. -/
def internalTransferCreate (fromA toA : Account) (amount : Amount) :
    TransferRec × List Txn × Account × Account :=
  let transfer : TransferRec :=
    { from_acc := fromA.accId
      to_acc := some toA.accId
      amount := amount
      transfer_type := "INTERNAL"
      status := "COMPLETED"
      transfer_fee := 0
      reference_number := ""
      currencyCode := fromA.currencyCode
      created_today := true }
  let debit : Txn :=
    { accId := fromA.accId
      transaction_type := "DEBIT"
      amount := amount
      reference_number := transfer.reference_number
      balance_before := fromA.balance
      balance_after := fromA.balance - amount
      status := "COMPLETED"
      currencyCode := some toA.currencyCode
      created_today := true }
  let credit : Txn :=
    { accId := toA.accId
      transaction_type := "CREDIT"
      amount := amount
      reference_number := transfer.reference_number
      balance_before := toA.balance
      balance_after := toA.balance + amount
      status := "COMPLETED"
      currencyCode := some fromA.currencyCode
      created_today := true }
  (transfer, [debit, credit],
    { fromA with balance := fromA.balance - amount },
    { toA with balance := toA.balance + amount })

/-- The full internal transfer operation: validation, then the atomic create.
A `.ok` result carries the entire post-state of the atomic block; a `.error`
result means nothing was created and no balance changed. -/
def internalTransfer (transfers : List TransferRec) (fromA toA : Account)
    (amount : Amount) : Except String (TransferRec × List Txn × Account × Account) :=
  match internalTransferValidate transfers fromA toA amount with
  | .error e => .error e
  | .ok _ => .ok (internalTransferCreate fromA toA amount)

/-- The aggregation in `ExternalTransferSerializer.validate`
(`transactions/serializers.py` lines 321-326): sum of amounts of EXTERNAL
transfers from this account created today with status COMPLETED or PENDING. -/
def externalDailyTotal (transfers : List TransferRec) (fromId : ℕ) : Amount :=
  ((transfers.filter (fun tr =>
      tr.from_acc == fromId && tr.transfer_type == "EXTERNAL" && tr.created_today &&
      (tr.status == "COMPLETED" || tr.status == "PENDING"))).map
    (fun tr => tr.amount)).sum

/-- `ExternalTransferSerializer` validation (`transactions/serializers.py`
lines 300-333): active account, fee = 1% of amount, balance must cover
amount + fee, and the hard-coded `Decimal('25000')` daily limit.  Returns the
computed fee. -/
def externalTransferValidate (transfers : List TransferRec) (fromA : Account)
    (amount : Amount) : Except String Amount :=
  if fromA.status ≠ "active" then .error "Account not found or inactive"
  else if ¬ twoDp amount then .error "Ensure amount has at most 2 decimal places"
  else if amount < 1/100 then .error "Ensure amount is at least 0.01"
  else if fromA.balance < amount + amount * (1/100) then
    .error "Insufficient balance including fees"
  else if externalDailyTotal transfers fromA.accId + amount > 25000 then
    .error "Daily external transfer limit exceeded"
  else .ok (amount * (1/100))

/-- `ExternalTransferSerializer.create` (`transactions/serializers.py` lines
335-364): phase 1 creates a PENDING EXTERNAL Transfer carrying the fee and
enqueues the asynchronous completion; the account is returned untouched (no
balance field is written in phase 1). -/
def externalTransferCreate (fromA : Account) (amount fee_amount : Amount) :
    TransferRec × Account :=
  ({ from_acc := fromA.accId
     to_acc := none
     amount := amount
     transfer_type := "EXTERNAL"
     status := "PENDING"
     transfer_fee := fee_amount
     reference_number := ""
     currencyCode := fromA.currencyCode
     created_today := true }, fromA)

/-- The full phase-1 external transfer operation. -/
def externalTransfer (transfers : List TransferRec) (fromA : Account)
    (amount : Amount) : Except String (TransferRec × Account) :=
  match externalTransferValidate transfers fromA amount with
  | .error e => .error e
  | .ok fee => .ok (externalTransferCreate fromA amount fee)

/-- The state the asynchronous completion job reads and writes: the Transfer
row, the source Account row, and the Transaction table. -/
structure ExtState where
  transfer : TransferRec
  account : Account
  txns : List Txn
deriving DecidableEq, Repr

/-- One invocation of `process_external_transfer` (`transactions/tasks.py`
lines 13-98), parametrised by the outcome of the external settlement call
(`simulate_external_transfer`).  Returns the persisted state paired with
`true` when the invocation raised (so the attempt will be retried).

If the Transfer is not PENDING the job returns immediately.  If the balance
no longer covers amount + fee the Transfer is saved FAILED (this save is
outside the atomic block).  On settlement failure the Transfer is saved
FAILED inside the atomic block, which commits.  On settlement success the
code first saves the Transfer as COMPLETED and then calls
`Transaction.objects.create(...)` passing `tenant_id=from_account.tenant_id`
— but neither `Account` nor `Transaction` defines a `tenant_id` field
(both extend the plain `TimeStampedModel`), and the create also omits the
non-null `user` and `currency` foreign keys — so evaluating
`from_account.tenant_id` raises before anything else can happen.  The raise
aborts the surrounding `transaction.atomic()` block, rolling back the
COMPLETED save: the attempt persists nothing.  Hence the success branch
returns the state unchanged with the raised flag set; the COMPLETED
transfer, the debit Transaction and the balance decrease are unreachable. -/
def process_external_transfer (externalSuccess : Bool) (st : ExtState) : ExtState × Bool :=
  if st.transfer.status ≠ "PENDING" then (st, false)
  else
    let amount := st.transfer.amount
    let fee_amount := st.transfer.transfer_fee
    let total_deduction := amount + fee_amount
    if st.account.balance < total_deduction then
      ({ st with transfer := { st.transfer with status := "FAILED" } }, false)
    else if externalSuccess then
      (st, true)
    else
      ({ st with transfer := { st.transfer with status := "FAILED" } }, false)

/-- The task's except handler once retries are exhausted
(`transactions/tasks.py` lines 84-98): the Transfer is re-fetched and saved
with status FAILED ("Processing error after multiple attempts"); no
Transaction is created and no balance is touched. -/
def external_transfer_mark_failed (st : ExtState) : ExtState :=
  { st with transfer := { st.transfer with status := "FAILED" } }

/-- `Transaction.complete_transaction` (`transactions/models.py` lines
142-148): unconditionally sets status to completed and stamps
`processed_at`. -/
def complete_transaction (t : Txn) : Txn :=
  { t with status := "completed", processed := true }

/-- `Transaction.fail_transaction` (`transactions/models.py` lines 150-157):
unconditionally sets status to failed, appending the reason to notes when
given. -/
def fail_transaction (t : Txn) (reason : Option String) : Txn :=
  { t with status := "failed",
           notes := match reason with
                    | some r => t.notes ++ "\nFailure reason: " ++ r
                    | none => t.notes }

/-- `Transaction.reverse_transaction` (`transactions/models.py` lines
159-166): unconditionally sets status to reversed, appending the reason to
notes when given. -/
def reverse_transaction (t : Txn) (reason : Option String) : Txn :=
  { t with status := "reversed",
           notes := match reason with
                    | some r => t.notes ++ "\nReversal reason: " ++ r
                    | none => t.notes }

/-- A row of `core.models.ExchangeRate` (fields read by the conversion
serializer). -/
structure ExchangeRate where
  from_code : String
  to_code : String
  rate : ℚ
  spread : ℚ
  is_active : Bool
deriving DecidableEq, Repr

/-- A row of `currency.models.CurrencyConversion` as written by
`ConvertCurrencySerializer.create`. -/
structure ConversionRec where
  from_code : String
  to_code : String
  amount : Amount
  converted_amount : Amount
  exchange_rate : ℚ
  spread_applied : ℚ
  total_rate : ℚ
deriving DecidableEq, Repr

/-- `ExchangeRate.objects.get(from_currency=f, to_currency=t, is_active=True)`
over the rate table. -/
def findRate (rates : List ExchangeRate) (f t : String) : Option ExchangeRate :=
  rates.find? (fun r => r.from_code == f && r.to_code == t && r.is_active)

/-- The arithmetic of `ConvertCurrencySerializer.create`
(`currency/serializers.py` lines 99-136): invert the base rate for a reverse
lookup, apply the spread only when `amount > 10000`, and record
`converted_amount = amount * total_rate`. -/
def convertCreate (f t : String) (amount rate spread : ℚ) (reverse : Bool) :
    ConversionRec :=
  let base_rate := if reverse then 1 / rate else rate
  let spread_applied := if amount > 10000 then spread else 0
  let total_rate := if amount > 10000 then base_rate * (1 - spread) else base_rate
  { from_code := f
    to_code := t
    amount := amount
    converted_amount := amount * total_rate
    exchange_rate := base_rate
    spread_applied := spread_applied
    total_rate := total_rate }

/-- `ConvertCurrencySerializer` validation and create
(`currency/serializers.py` lines 44-136): reject same-currency conversion,
look up the active forward pair, fall back to the active reverse pair with
the inverted rate, and fail when neither exists. -/
def convertCurrency (rates : List ExchangeRate) (f t : String) (amount : Amount) :
    Except String ConversionRec :=
  if f == t then .error "Cannot convert to the same currency"
  else
    match findRate rates f t with
    | some er => .ok (convertCreate f t amount er.rate er.spread false)
    | none =>
      match findRate rates t f with
      | some er => .ok (convertCreate f t amount er.rate er.spread true)
      | none => .error "Exchange rate not available"

/-- A calendar date, for `ScheduledTransaction.next_execution`.  The time of
day plays no role in the frequency arithmetic. -/
structure Date where
  year : ℤ
  month : ℕ
  day : ℕ
deriving DecidableEq, Repr

/-- Gregorian leap year rule. -/
def isLeap (y : ℤ) : Bool :=
  (y % 4 == 0 && y % 100 != 0) || (y % 400 == 0)

/-- Number of days in a month. -/
def daysInMonth (y : ℤ) (m : ℕ) : ℕ :=
  if m == 2 then (if isLeap y then 29 else 28)
  else if m == 4 || m == 6 || m == 9 || m == 11 then 30
  else 31

/-- `timezone.timedelta(days=1)` on a date. -/
def nextDay (d : Date) : Date :=
  if d.day < daysInMonth d.year d.month then { d with day := d.day + 1 }
  else if d.month < 12 then { d with month := d.month + 1, day := 1 }
  else { year := d.year + 1, month := 1, day := 1 }

/-- `timezone.timedelta(days=n)` on a date. -/
def addDays (n : ℕ) (d : Date) : Date :=
  match n with
  | 0 => d
  | k + 1 => addDays k (nextDay d)

/-- `dateutil.relativedelta(months=n)` on a date: add months with year carry
and clamp the day to the length of the target month. -/
def addMonths (n : ℕ) (d : Date) : Date :=
  let total := (d.month - 1) + n
  let y := d.year + (total / 12 : ℕ)
  let m := total % 12 + 1
  { year := y, month := m, day := min d.day (daysInMonth y m) }

/-- `ScheduledTransaction.calculate_next_execution`
(`transactions/models.py` lines 347-368): a pure computation that RETURNS the
next execution date by frequency and does not mutate the record. -/
def calculate_next_execution (frequency : String) (next_execution : Date) :
    Option Date :=
  if frequency == "once" then none
  else if frequency == "daily" then some (addDays 1 next_execution)
  else if frequency == "weekly" then some (addDays 7 next_execution)
  else if frequency == "biweekly" then some (addDays 14 next_execution)
  else if frequency == "monthly" then some (addMonths 1 next_execution)
  else if frequency == "quarterly" then some (addMonths 3 next_execution)
  else if frequency == "annually" then some (addMonths 12 next_execution)
  else none

/-- The view of a due ScheduledTransaction that
`process_scheduled_transactions` (`transactions/tasks.py` lines 140-235)
manipulates, together with the source account balance it checks. -/
structure SchedView where
  is_active : Bool
  frequency : String
  amount : Amount
  next_execution : Date
  execution_count : ℕ
  fromBalance : Amount
deriving DecidableEq, Repr

/-- The insufficient-balance branch of `process_scheduled_transactions`
(`transactions/tasks.py` lines 163-168), embedded exactly as written: the task
calls `scheduled_txn.calculate_next_execution()` as a statement, DISCARDS the
returned date, and saves the record — so no field of the schedule changes and
no balance is touched. -/
def scheduledSkipCycle (s : SchedView) : SchedView :=
  let _discarded := calculate_next_execution s.frequency s.next_execution
  s

/-- What the spec means by the rolling daily withdrawal usage, written from
the spec words for comparison with `withdrawDailyDebits`: the sum of completed
withdrawal Transactions for the account on the current day (withdrawals are
stored with type `"withdrawal"` and status `"completed"`). -/
def specDailyWithdrawalUsage (txns : List Txn) (accId : ℕ) : Amount :=
  ((txns.filter (fun t =>
      t.accId == accId && t.transaction_type == "withdrawal" &&
      t.created_today && t.status == "completed")).map (fun t => t.amount)).sum

/-- The USD currency row used by the concrete scenarios. -/
def usdCur : Currency := { code := "USD", is_active := true }

/-- The account of the spec's concrete deposit scenario: active, USD,
balance 1000, available_balance 1000, no overdraft. -/
def accA : Account :=
  { accId := 1, status := "active", balance := 1000, available_balance := 1000,
    overdraft_limit := 0, currencyCode := "USD" }

/-- An account with equal balance and available_balance, used to exhibit the
effect of a withdrawal on the invariant. -/
def accB : Account :=
  { accId := 2, status := "active", balance := 100, available_balance := 100,
    overdraft_limit := 0, currencyCode := "USD" }

/-- An account whose ledger balance is positive but whose available balance
is zero (e.g. fully held), used for the withdrawal funds check. -/
def accC : Account :=
  { accId := 3, status := "active", balance := 100, available_balance := 0,
    overdraft_limit := 0, currencyCode := "USD" }

/-- An account with a large balance, used for the daily-limit scenarios. -/
def accD : Account :=
  { accId := 4, status := "active", balance := 20000, available_balance := 20000,
    overdraft_limit := 0, currencyCode := "USD" }

/-- A completed withdrawal Transaction of 10000 created today on `accD`,
stored exactly as `WithdrawSerializer.create` stores withdrawals: type
`"withdrawal"`, status `"completed"`. -/
def wTxnBig : Txn :=
  { accId := 4, transaction_type := "withdrawal", amount := 10000,
    reference_number := "", balance_before := 20000, balance_after := 10000,
    status := "completed", currencyCode := some "USD", created_today := true }

/-- The deposit Transaction produced by depositing 100 into `accA`. -/
def depTxnA : Txn :=
  { accId := 1, transaction_type := "deposit", amount := 100,
    reference_number := "", balance_before := 1000, balance_after := 1100,
    status := "completed", currencyCode := some "USD", created_today := true }

/-- `accA` after the 100 deposit: only `balance` moved. -/
def accA' : Account :=
  { accId := 1, status := "active", balance := 1100, available_balance := 1000,
    overdraft_limit := 0, currencyCode := "USD" }

/-- Source account of the concrete transfer scenario. -/
def fromAcc1 : Account :=
  { accId := 10, status := "active", balance := 1000, available_balance := 1000,
    overdraft_limit := 0, currencyCode := "USD" }

/-- Destination account of the concrete transfer scenario (different
currency, to witness that the claim holds regardless of currencies). -/
def toAcc1 : Account :=
  { accId := 11, status := "active", balance := 200, available_balance := 200,
    overdraft_limit := 0, currencyCode := "EUR" }

/-- Source account of the concrete external transfer scenario. -/
def extAcc : Account :=
  { accId := 20, status := "active", balance := 1000, available_balance := 1000,
    overdraft_limit := 0, currencyCode := "USD" }

/-- The PENDING Transfer that phase 1 creates for an external transfer of 100
from `extAcc` (fee 1% = 1). -/
def pendTr : TransferRec :=
  { from_acc := 20, to_acc := none, amount := 100, transfer_type := "EXTERNAL",
    status := "PENDING", transfer_fee := 1, reference_number := "",
    currencyCode := "USD", created_today := true }

/-- The state seen by the completion job right after phase 1. -/
def extSt0 : ExtState :=
  { transfer := pendTr, account := extAcc, txns := [] }

/-- A state whose Transfer has already left PENDING. -/
def extStDone : ExtState :=
  { transfer := { pendTr with status := "COMPLETED" }, account := extAcc, txns := [] }

/-- The USD→EUR rate row of the concrete conversion scenario: rate 0.85,
spread 0.01, active. -/
def rateUE : ExchangeRate :=
  { from_code := "USD", to_code := "EUR", rate := 85/100, spread := 1/100,
    is_active := true }

/-- The conversion record produced for 500 USD→EUR at `rateUE` (no spread,
amount ≤ 10000). -/
def convUE : ConversionRec :=
  { from_code := "USD", to_code := "EUR", amount := 500, converted_amount := 425,
    exchange_rate := 85/100, spread_applied := 0, total_rate := 85/100 }

/-- A Transaction already in the terminal failed state. -/
def failedTxn : Txn :=
  { accId := 9, transaction_type := "deposit", amount := 5, reference_number := "",
    balance_before := 0, balance_after := 5, status := "failed",
    currencyCode := some "USD", created_today := true }

/-- A due active daily ScheduledTransaction whose source balance (50) is
below the scheduled amount (100). -/
def sched0 : SchedView :=
  { is_active := true, frequency := "daily", amount := 100,
    next_execution := { year := 2026, month := 10, day := 12 },
    execution_count := 3, fromBalance := 50 }

/-- A DRF-valid positive two-decimal amount is at least 0.01. -/
lemma twoDp_pos_ge {a : Amount} (h2 : twoDp a = true) (hpos : 0 < a) :
    1/100 ≤ a := by
  have hden : (a * 100).den = 1 := by
    unfold twoDp at h2
    exact eq_of_beq h2
  have hq : (((a * 100).num : ℚ)) = a * 100 := by
    have h' := Rat.num_div_den (a * 100)
    rw [hden] at h'
    simpa using h'
  have hpos' : (0 : ℚ) < a * 100 := by positivity
  have hint : 0 < (a * 100).num := by
    have : (0 : ℚ) < ((a * 100).num : ℚ) := by rw [hq]; exact hpos'
    exact_mod_cast this
  have h1 : (1 : ℚ) ≤ a * 100 := by
    have : (1 : ℤ) ≤ (a * 100).num := hint
    calc (1 : ℚ) ≤ ((a * 100).num : ℚ) := by exact_mod_cast this
    _ = a * 100 := hq
  linarith

/-- Inversion of a successful deposit: what the checks guaranteed and what the
atomic block produced. -/
lemma deposit_ok_inv {currencies : List Currency} {acc : Account} {amount : Amount}
    {t : Txn} {a' : Account}
    (h : deposit currencies acc amount = .ok (t, a')) :
    ∃ usd, findUSD currencies = some usd ∧ usd.code = "USD" ∧
      acc.status = "active" ∧ twoDp amount = true ∧ 1/100 ≤ amount ∧
      amount ≤ 1000000 ∧
      t = { accId := acc.accId, transaction_type := "deposit", amount := amount,
            reference_number := "", balance_before := acc.balance,
            balance_after := acc.balance + amount, status := "completed",
            currencyCode := some usd.code, created_today := true } ∧
      a' = { acc with balance := acc.balance + amount } := by
  unfold deposit at h
  cases hv : depositValidate acc amount with
  | error e => rw [hv] at h; simp at h
  | ok u =>
    rw [hv] at h
    unfold depositValidate at hv
    split_ifs at hv with h1 h2 h3 h4 h5
    unfold depositCreate at h
    cases hfind : findUSD currencies with
    | none => rw [hfind] at h; simp at h
    | some usd =>
      rw [hfind] at h
      simp only [Except.ok.injEq, Prod.mk.injEq] at h
      refine ⟨usd, rfl, ?_, ?_, ?_, ?_, ?_, ?_, ?_⟩
      · have := List.find?_some hfind
        exact eq_of_beq (by simpa using this)
      · simpa using h1
      · simpa using h2
      · simpa using h3
      · simpa using h5
      · exact h.1.symm
      · exact h.2.symm

/-- Inversion of a successful withdrawal. -/
lemma withdraw_ok_inv {currencies : List Currency} {txns : List Txn}
    {acc : Account} {amount : Amount} {t : Txn} {a' : Account}
    (h : withdraw currencies txns acc amount = .ok (t, a')) :
    ∃ usd, findUSD currencies = some usd ∧ usd.code = "USD" ∧
      acc.status = "active" ∧ twoDp amount = true ∧ 1/100 ≤ amount ∧
      amount ≤ acc.balance ∧
      withdrawDailyDebits txns acc.accId + amount ≤ 10000 ∧
      t = { accId := acc.accId, transaction_type := "withdrawal", amount := amount,
            reference_number := "", balance_before := acc.balance,
            balance_after := acc.balance - amount, status := "completed",
            currencyCode := some usd.code, created_today := true } ∧
      a' = { acc with balance := acc.balance - amount } := by
  unfold withdraw at h
  cases hv : withdrawValidate txns acc amount with
  | error e => rw [hv] at h; simp at h
  | ok u =>
    rw [hv] at h
    unfold withdrawValidate at hv
    split_ifs at hv with h1 h2 h3 h4 h5
    unfold withdrawCreate at h
    cases hfind : findUSD currencies with
    | none => rw [hfind] at h; simp at h
    | some usd =>
      rw [hfind] at h
      simp only [Except.ok.injEq, Prod.mk.injEq] at h
      refine ⟨usd, rfl, ?_, ?_, ?_, ?_, ?_, ?_, ?_, ?_⟩
      · have := List.find?_some hfind
        exact eq_of_beq (by simpa using this)
      · simpa using h1
      · simpa using h2
      · simpa using h3
      · exact le_of_not_lt h4
      · exact le_of_not_lt h5
      · exact h.1.symm
      · exact h.2.symm

/-- Claim C3 (amended): a deposit of a valid two-decimal amount with
0 < amount ≤ 1000000 into an active account creates, in one atomic unit, the
single completed deposit Transaction with balance_before the balance read in
that unit and balance_after = balance_before + amount, and increases
account.balance by exactly amount — but leaves available_balance unchanged
(the source writes only `balance`). -/
theorem deposit_effect (currencies : List Currency) (usd : Currency)
    (account : Account) (amount : Amount)
    (hact : account.status = "active")
    (hdp : twoDp amount = true)
    (hpos : 0 < amount)
    (hceil : amount ≤ 1000000)
    (husd : findUSD currencies = some usd) :
    deposit currencies account amount = .ok
      ({ accId := account.accId, transaction_type := "deposit", amount := amount,
         reference_number := "", balance_before := account.balance,
         balance_after := account.balance + amount, status := "completed",
         currencyCode := some usd.code, created_today := true },
       { account with balance := account.balance + amount }) := by
  have hmin : 1/100 ≤ amount := twoDp_pos_ge hdp hpos
  unfold deposit depositValidate depositCreate
  rw [husd]
  rw [if_neg (by simp [hact]), if_neg (by simp [hdp]), if_neg (not_lt.mpr hmin),
      if_neg (not_le.mpr hpos), if_neg (not_lt.mpr hceil)]

/-- Witness for the amended C3 theorem at a concrete input: the scenario of
the spec, account balance 1000, deposit 100. -/
theorem deposit_effect_witness :
    deposit [usdCur] accA 100 = .ok
      ({ accId := accA.accId, transaction_type := "deposit", amount := 100,
         reference_number := "", balance_before := accA.balance,
         balance_after := accA.balance + 100, status := "completed",
         currencyCode := some usdCur.code, created_today := true },
       { accA with balance := accA.balance + 100 }) :=
  deposit_effect [usdCur] usdCur accA 100 rfl (by norm_num [twoDp])
    (by norm_num) (by norm_num) rfl

/-- Counterexample to claim C3 as stated: depositing 100 into an active
account with balance 1000 and available_balance 1000 leaves
available_balance at 1000, not 1000 + 100 as the claim requires. -/
theorem deposit_available_balance_cex :
    Except.map (fun p => (p.2.balance, p.2.available_balance))
      (deposit [usdCur] accA 100) = .ok ((1100 : ℚ), (1000 : ℚ))
    ∧ (1000 : ℚ) ≠ 1000 + 100 := by
  constructor
  · norm_num [deposit, depositValidate, depositCreate, findUSD, twoDp, accA, usdCur,
      List.find?, Except.map]
  · norm_num

/-- Claim C4 (amended): `Account.update_balance` mutates `balance` and
`available_balance` together (preserving their difference, hence the
invariant available_balance ≤ balance), and Deposit preserves the invariant
because it only increases `balance`; but the invariant is NOT maintained by
every Ledger operation — Withdraw decreases only `balance`, so equality is
lost on deposit and the inequality itself fails after a withdrawal (see the
counterexample). -/
theorem update_balance_deposit_invariant (acc : Account) (amount : Amount) :
    ((update_balance acc amount "credit").balance
        - (update_balance acc amount "credit").available_balance
      = acc.balance - acc.available_balance)
    ∧ ((update_balance acc amount "debit").balance
        - (update_balance acc amount "debit").available_balance
      = acc.balance - acc.available_balance)
    ∧ (acc.available_balance ≤ acc.balance →
        (update_balance acc amount "credit").available_balance
          ≤ (update_balance acc amount "credit").balance)
    ∧ (acc.available_balance ≤ acc.balance →
        (update_balance acc amount "debit").available_balance
          ≤ (update_balance acc amount "debit").balance)
    ∧ (∀ currencies t a', deposit currencies acc amount = .ok (t, a') →
        acc.available_balance ≤ acc.balance →
        a'.available_balance ≤ a'.balance) := by
  refine ⟨?_, ?_, ?_, ?_, ?_⟩
  · simp [update_balance]
  · simp [update_balance]
  · intro h; simpa [update_balance] using h
  · intro h; simpa [update_balance] using h
  · intro currencies t a' hdep hinv
    obtain ⟨usd, _, _, _, _, hmin, _, _, ha'⟩ := deposit_ok_inv hdep
    subst ha'
    simp only []
    linarith

/-- Witness for the amended C4 theorem: the invariant facts at concrete
inputs, including the deposit arm at the spec scenario. -/
theorem update_balance_deposit_invariant_witness :
    ((update_balance accA 25 "debit").available_balance
      ≤ (update_balance accA 25 "debit").balance)
    ∧ accA'.available_balance ≤ accA'.balance := by
  constructor
  · exact (update_balance_deposit_invariant accA 25).2.2.2.1 (by norm_num [accA])
  · exact (update_balance_deposit_invariant accA 100).2.2.2.2 [usdCur] depTxnA accA'
      (by norm_num [deposit, depositValidate, depositCreate, findUSD, twoDp,
        List.find?, accA, usdCur, depTxnA, accA'])
      (by norm_num [accA])

/-- Counterexample to claim C4 as stated: withdrawing 50 from an account with
balance = available_balance = 100 leaves balance 50 but available_balance
100, so available_balance ≤ balance fails after a Withdraw. -/
theorem withdraw_invariant_cex :
    Except.map (fun p => (p.2.balance, p.2.available_balance))
      (withdraw [usdCur] [] accB 50) = .ok ((50 : ℚ), (100 : ℚ))
    ∧ accB.available_balance ≤ accB.balance
    ∧ ¬ ((100 : ℚ) ≤ (50 : ℚ)) := by
  refine ⟨?_, by norm_num [accB], by norm_num⟩
  norm_num [withdraw, withdrawValidate, withdrawCreate, withdrawDailyDebits,
    findUSD, twoDp, List.find?, accB, usdCur, Except.map]

/-- Claim C5 (amended): the withdrawal funds check rejects with
"Insufficient balance" exactly when the ledger `balance` (not
available_balance + overdraft_limit, which the code never consults) is below
the amount; rejection happens before any mutation, and after an accepted
withdrawal the new balance equals balance - amount and is ≥ 0, hence
≥ -overdraft_limit whenever the overdraft limit is nonnegative. -/
theorem withdraw_insufficient_iff (currencies : List Currency) (txns : List Txn)
    (acc : Account) (amount : Amount)
    (hact : acc.status = "active") (hdp : twoDp amount = true) (hpos : 0 < amount) :
    (withdrawValidate txns acc amount = .error "Insufficient balance"
      ↔ acc.balance < amount)
    ∧ (∀ t a', withdraw currencies txns acc amount = .ok (t, a') →
        a'.balance = acc.balance - amount ∧ 0 ≤ a'.balance
        ∧ (0 ≤ acc.overdraft_limit → -acc.overdraft_limit ≤ a'.balance)) := by
  have hmin : 1/100 ≤ amount := twoDp_pos_ge hdp hpos
  constructor
  · constructor
    · intro h
      by_contra hge
      unfold withdrawValidate at h
      rw [if_neg (by simp [hact]), if_neg (by simp [hdp]),
          if_neg (not_lt.mpr hmin), if_neg hge] at h
      split_ifs at h
      simp at h
    · intro hlt
      unfold withdrawValidate
      rw [if_neg (by simp [hact]), if_neg (by simp [hdp]),
          if_neg (not_lt.mpr hmin), if_pos hlt]
  · intro t a' hok
    obtain ⟨usd, _, _, _, _, hm, hbal, _, _, ha'⟩ := withdraw_ok_inv hok
    subst ha'
    refine ⟨rfl, ?_, ?_⟩
    · show (0 : ℚ) ≤ acc.balance - amount
      linarith
    · intro hod
      show -acc.overdraft_limit ≤ acc.balance - amount
      linarith

/-- Witness for the amended C5 theorem: balance 100 < amount 200 is rejected
with the insufficient-balance error, at a concrete account. -/
theorem withdraw_insufficient_iff_witness :
    withdrawValidate [] accB 200 = .error "Insufficient balance" :=
  (withdraw_insufficient_iff [usdCur] [] accB 200 rfl (by norm_num [twoDp])
    (by norm_num)).1.mpr (by norm_num [accB])

/-- Counterexample to claim C5 as stated: an active account with balance 100
but available_balance 0 and overdraft_limit 0 requests a withdrawal of 50;
the claim demands rejection (available_balance + overdraft_limit < amount)
but the validation passes because the code compares the ledger balance. -/
theorem withdraw_overdraft_cex :
    withdrawValidate [] accC 50 = .ok ()
    ∧ accC.available_balance + accC.overdraft_limit < 50 := by
  constructor
  · norm_num [withdrawValidate, withdrawDailyDebits, twoDp, accC]
  · norm_num [accC]

/-- Claim C6 (amended): given sufficient balance, the withdrawal daily-limit
check rejects with "Daily withdrawal limit exceeded" exactly when the sum of
today's Transactions with type "DEBIT" and status "COMPLETED" (the strings
the query filters on) plus the amount exceeds the hard-coded 10000 — and
completed withdrawal Transactions, stored with type "withdrawal" and status
"completed", never contribute to that sum. -/
theorem withdraw_daily_limit_behavior (txns : List Txn) (acc : Account)
    (amount : Amount)
    (hact : acc.status = "active") (hdp : twoDp amount = true) (hpos : 0 < amount)
    (hbal : ¬ acc.balance < amount) :
    (withdrawValidate txns acc amount = .error "Daily withdrawal limit exceeded"
      ↔ withdrawDailyDebits txns acc.accId + amount > 10000)
    ∧ (withdrawValidate txns acc amount = .ok ()
      ↔ withdrawDailyDebits txns acc.accId + amount ≤ 10000)
    ∧ (∀ t, t.transaction_type = "withdrawal" →
        ∀ accId, withdrawDailyDebits (t :: txns) accId
          = withdrawDailyDebits txns accId) := by
  have hmin : 1/100 ≤ amount := twoDp_pos_ge hdp hpos
  have hval : withdrawValidate txns acc amount =
      (if withdrawDailyDebits txns acc.accId + amount > 10000 then
        Except.error "Daily withdrawal limit exceeded" else Except.ok ()) := by
    unfold withdrawValidate
    rw [if_neg (by simp [hact]), if_neg (by simp [hdp]),
        if_neg (not_lt.mpr hmin), if_neg hbal]
  refine ⟨?_, ?_, ?_⟩
  · rw [hval]
    constructor
    · intro h
      by_contra hgt
      rw [if_neg hgt] at h
      simp at h
    · intro hgt
      rw [if_pos hgt]
  · rw [hval]
    constructor
    · intro h
      by_contra hle
      rw [if_pos (lt_of_not_le hle)] at h
      simp at h
    · intro hle
      rw [if_neg (not_lt.mpr hle)]
  · intro t ht accId
    unfold withdrawDailyDebits
    rw [List.filter_cons]
    have : (t.accId == accId && t.transaction_type == "DEBIT" &&
        t.created_today && t.status == "COMPLETED") = false := by
      rw [ht]
      simp
    rw [this]
    simp

/-- Witness for the amended C6 theorem at the concrete daily-limit scenario:
with a completed withdrawal of 10000 already recorded today, a further
withdrawal of 1 still passes validation because the limit query counts only
"DEBIT"/"COMPLETED" rows. -/
theorem withdraw_daily_limit_behavior_witness :
    withdrawValidate [wTxnBig] accD 1 = .ok () :=
  (withdraw_daily_limit_behavior [wTxnBig] accD 1 rfl (by norm_num [twoDp])
    (by norm_num) (by norm_num [accD])).2.1.mpr
    (by norm_num [withdrawDailyDebits, wTxnBig, accD, List.filter,
      (by decide : (("withdrawal" : String) == "DEBIT") = false)])

/-- Counterexample to claim C6 as stated: the account has a completed
withdrawal Transaction of 10000 created today, so the spec's rolling daily
usage plus the requested 1 exceeds the 10000 limit and the claim demands
rejection — but the code's validation passes, because its query filters on
type "DEBIT" and status "COMPLETED" while withdrawals are stored as
"withdrawal"/"completed". -/
theorem withdraw_daily_limit_cex :
    withdrawValidate [wTxnBig] accD 1 = .ok ()
    ∧ specDailyWithdrawalUsage [wTxnBig] accD.accId + 1 > 10000 := by
  constructor
  · norm_num [withdrawValidate, withdrawDailyDebits, twoDp, List.filter,
      wTxnBig, accD, (by decide : (("withdrawal" : String) == "DEBIT") = false)]
  · norm_num [specDailyWithdrawalUsage, List.filter, wTxnBig, accD]

/-- Claim C1: for an internal transfer between two distinct active accounts
with sufficient balance (and within the daily limit the code also checks),
the single atomic block produces exactly one COMPLETED INTERNAL Transfer and
exactly the two Transaction legs listed — a DEBIT on the source account and a
CREDIT on the destination, both carrying the Transfer's reference number —
and the source balance drops by exactly the amount while the destination
balance rises by exactly the amount.  The `.ok` value is the complete
post-state of the atomic block, so no partial transfer state exists. -/
theorem internal_transfer_double_entry (transfers : List TransferRec)
    (fromA toA : Account) (amount : Amount)
    (hfrom : fromA.status = "active") (hto : toA.status = "active")
    (hne : fromA.accId ≠ toA.accId)
    (hdp : twoDp amount = true) (hpos : 0 < amount)
    (hbal : ¬ fromA.balance < amount)
    (hlim : ¬ transferDailyTotal transfers fromA.accId + amount > 50000) :
    internalTransfer transfers fromA toA amount = .ok
      ({ from_acc := fromA.accId, to_acc := some toA.accId, amount := amount,
         transfer_type := "INTERNAL", status := "COMPLETED", transfer_fee := 0,
         reference_number := "", currencyCode := fromA.currencyCode,
         created_today := true },
       [{ accId := fromA.accId, transaction_type := "DEBIT", amount := amount,
          reference_number := "", balance_before := fromA.balance,
          balance_after := fromA.balance - amount, status := "COMPLETED",
          currencyCode := some toA.currencyCode, created_today := true },
        { accId := toA.accId, transaction_type := "CREDIT", amount := amount,
          reference_number := "", balance_before := toA.balance,
          balance_after := toA.balance + amount, status := "COMPLETED",
          currencyCode := some fromA.currencyCode, created_today := true }],
       { fromA with balance := fromA.balance - amount },
       { toA with balance := toA.balance + amount }) := by
  have hmin : 1/100 ≤ amount := twoDp_pos_ge hdp hpos
  unfold internalTransfer internalTransferValidate internalTransferCreate
  rw [if_neg (by simp [hfrom, hto]), if_neg (by simp [hdp]),
      if_neg (not_lt.mpr hmin), if_neg (by simp [hne]), if_neg hbal, if_neg hlim]

/-- Witness for the C1 theorem at a concrete input: transfer 500 from a USD
account with balance 1000 to an active EUR account with balance 200. -/
theorem internal_transfer_double_entry_witness :
    internalTransfer [] fromAcc1 toAcc1 500 = .ok
      ({ from_acc := fromAcc1.accId, to_acc := some toAcc1.accId, amount := 500,
         transfer_type := "INTERNAL", status := "COMPLETED", transfer_fee := 0,
         reference_number := "", currencyCode := fromAcc1.currencyCode,
         created_today := true },
       [{ accId := fromAcc1.accId, transaction_type := "DEBIT", amount := 500,
          reference_number := "", balance_before := fromAcc1.balance,
          balance_after := fromAcc1.balance - 500, status := "COMPLETED",
          currencyCode := some toAcc1.currencyCode, created_today := true },
        { accId := toAcc1.accId, transaction_type := "CREDIT", amount := 500,
          reference_number := "", balance_before := toAcc1.balance,
          balance_after := toAcc1.balance + 500, status := "COMPLETED",
          currencyCode := some fromAcc1.currencyCode, created_today := true }],
       { fromAcc1 with balance := fromAcc1.balance - 500 },
       { toAcc1 with balance := toAcc1.balance + 500 }) :=
  internal_transfer_double_entry [] fromAcc1 toAcc1 500 rfl rfl
    (by norm_num [fromAcc1, toAcc1]) (by norm_num [twoDp]) (by norm_num)
    (by norm_num [fromAcc1])
    (by norm_num [transferDailyTotal, List.filter])

/-- Claim C2 (code bug): phase 1 does create the Transfer with status
PENDING and fee = 1% of the amount while leaving the account untouched, and
the completion job does return immediately on a Transfer that is no longer
PENDING — but the claimed successful completion is unreachable: with the
settlement call succeeding on the concrete pending state, the invocation
raises (nonexistent `tenant_id` attribute, missing non-null `user` and
`currency` foreign keys on the debit create) and the rolled-back attempt
persists nothing — no COMPLETED transfer, no debit Transaction, no balance
change — and once retries are exhausted the except handler marks the
Transfer FAILED, still with no Transaction and no balance change, contrary
to the claimed one-debit / one-balance-mutation completion. -/
theorem external_transfer_success_unreachable :
    externalTransfer [] extAcc 100 = .ok (pendTr, extAcc)
    ∧ pendTr.status = "PENDING"
    ∧ pendTr.transfer_fee = 100 * (1/100)
    ∧ extSt0.account.balance = 1000
    ∧ extSt0.txns = []
    ∧ process_external_transfer true extSt0 = (extSt0, true)
    ∧ process_external_transfer false extStDone = (extStDone, false)
    ∧ process_external_transfer true extStDone = (extStDone, false)
    ∧ (external_transfer_mark_failed extSt0).transfer.status = "FAILED"
    ∧ (external_transfer_mark_failed extSt0).txns = []
    ∧ (external_transfer_mark_failed extSt0).account.balance = 1000 := by
  refine ⟨?_, rfl, by norm_num [pendTr], rfl, rfl, ?_, ?_, ?_, rfl, rfl, rfl⟩
  · norm_num [externalTransfer, externalTransferValidate, externalTransferCreate,
      externalDailyTotal, twoDp, List.filter, extAcc, pendTr]
  · norm_num [process_external_transfer, extSt0, pendTr, extAcc]
  · simp [process_external_transfer, extStDone, pendTr]
  · simp [process_external_transfer, extStDone, pendTr]

/-- Claim C7: whenever the conversion succeeds, converted_amount equals
amount times total_rate, the spread is applied exactly when amount > 10000
(so converting 10000 applies no spread while 10000.01 applies the pair's
spread), total_rate is base_rate * (1 - spread) respectively base_rate, and
the base rate is the active forward pair's rate, or the inverse of the active
reverse pair's rate when only the reverse pair exists. -/
theorem convert_currency_pricing (rates : List ExchangeRate) (f t : String)
    (amount : Amount) (c : ConversionRec)
    (h : convertCurrency rates f t amount = .ok c) :
    c.amount = amount
    ∧ c.converted_amount = c.amount * c.total_rate
    ∧ (amount > 10000 → c.total_rate = c.exchange_rate * (1 - c.spread_applied))
    ∧ (¬ amount > 10000 → c.total_rate = c.exchange_rate ∧ c.spread_applied = 0)
    ∧ (∀ er, findRate rates f t = some er →
        c.exchange_rate = er.rate ∧ (amount > 10000 → c.spread_applied = er.spread))
    ∧ (findRate rates f t = none →
        ∀ er, findRate rates t f = some er →
          c.exchange_rate = 1 / er.rate
          ∧ (amount > 10000 → c.spread_applied = er.spread)) := by
  unfold convertCurrency at h
  split_ifs at h with hft
  case _ =>
    cases hf : findRate rates f t with
    | some er =>
      rw [hf] at h
      simp only [Except.ok.injEq] at h
      subst h
      by_cases h10 : amount > 10000
      · refine ⟨by simp [convertCreate], by simp [convertCreate], ?_, ?_, ?_, ?_⟩
        · intro _; simp [convertCreate, h10]
        · intro hc; exact absurd h10 hc
        · intro er' hf'
          obtain rfl : er = er' := by simpa using hf'
          constructor
          · simp [convertCreate]
          · intro _; simp [convertCreate, h10]
        · intro hnone; simp at hnone
      · refine ⟨by simp [convertCreate], by simp [convertCreate], ?_, ?_, ?_, ?_⟩
        · intro hc; exact absurd hc h10
        · intro _; constructor
          · simp [convertCreate, h10]
          · simp [convertCreate, h10]
        · intro er' hf'
          obtain rfl : er = er' := by simpa using hf'
          constructor
          · simp [convertCreate]
          · intro hc; exact absurd hc h10
        · intro hnone; simp at hnone
    | none =>
      rw [hf] at h
      cases hr : findRate rates t f with
      | none => rw [hr] at h; simp at h
      | some er =>
        rw [hr] at h
        simp only [Except.ok.injEq] at h
        subst h
        by_cases h10 : amount > 10000
        · refine ⟨by simp [convertCreate], by simp [convertCreate], ?_, ?_, ?_, ?_⟩
          · intro _; simp [convertCreate, h10]
          · intro hc; exact absurd h10 hc
          · intro er' hf'; simp at hf'
          · intro _ er' hr'
            obtain rfl : er = er' := by simpa using hr'
            constructor
            · simp [convertCreate]
            · intro _; simp [convertCreate, h10]
        · refine ⟨by simp [convertCreate], by simp [convertCreate], ?_, ?_, ?_, ?_⟩
          · intro hc; exact absurd hc h10
          · intro _; constructor
            · simp [convertCreate, h10]
            · simp [convertCreate, h10]
          · intro er' hf'; simp at hf'
          · intro _ er' hr'
            obtain rfl : er = er' := by simpa using hr'
            constructor
            · simp [convertCreate]
            · intro hc; exact absurd hc h10

/-- Witness for the C7 theorem at the spec scenario: 500 USD→EUR at rate
0.85, below the threshold, gives 425 with no spread, and the base rate is the
forward pair's rate. -/
theorem convert_currency_pricing_witness :
    convUE.converted_amount = convUE.amount * convUE.total_rate
    ∧ (convUE.total_rate = convUE.exchange_rate ∧ convUE.spread_applied = 0)
    ∧ convUE.exchange_rate = rateUE.rate := by
  have h : convertCurrency [rateUE] "USD" "EUR" 500 = .ok convUE := by
    norm_num [convertCurrency, findRate, List.find?, convertCreate, rateUE, convUE,
      (by decide : (("USD" : String) == "EUR") = false)]
  have spec := convert_currency_pricing [rateUE] "USD" "EUR" 500 convUE h
  refine ⟨spec.2.1, spec.2.2.2.1 (by norm_num), ?_⟩
  exact (spec.2.2.2.2.1 rateUE (by norm_num [findRate, List.find?, rateUE])).1

/-- Claim C8 (amended): the status-update helpers perform no terminal-state
check at all — complete_transaction, fail_transaction and reverse_transaction
unconditionally overwrite the status with their target state whatever the
current status is, so transitions out of terminal states are applied, not
rejected. -/
theorem status_setters_unconditional (t : Txn) (reason : Option String) :
    (complete_transaction t).status = "completed"
    ∧ (fail_transaction t reason).status = "failed"
    ∧ (reverse_transaction t reason).status = "reversed" :=
  ⟨rfl, rfl, rfl⟩

/-- Counterexample to claim C8 as stated: calling complete_transaction on a
Transaction whose status is the terminal "failed" state is not rejected — it
moves the record to "completed". -/
theorem terminal_transition_applied_cex :
    failedTxn.status = "failed"
    ∧ (complete_transaction failedTxn).status = "completed" :=
  ⟨rfl, rfl⟩

/-- Claim C9 (code bug): the insufficient-balance branch keeps the schedule
active with execution_count unchanged and touches no balance, as the claim
says — but it does NOT advance next_execution: the task invokes
calculate_next_execution() as a statement and discards the returned date, so
the saved record is completely unchanged, while the discarded computation
(shown here for the daily frequency) is the strictly later date the claim
and spec require. -/
theorem scheduled_skip_discards_next_execution :
    (∀ s : SchedView, scheduledSkipCycle s = s)
    ∧ sched0.fromBalance < sched0.amount
    ∧ scheduledSkipCycle sched0 = sched0
    ∧ calculate_next_execution sched0.frequency sched0.next_execution
        = some { year := 2026, month := 10, day := 13 }
    ∧ ({ year := 2026, month := 10, day := 13 } : Date) ≠ sched0.next_execution := by
  refine ⟨fun s => rfl, by norm_num [sched0], rfl, ?_, ?_⟩
  · rfl
  · simp [sched0]

/-- Claim C10: deposit and withdraw both stamp the fixed USD currency row on
the Transactions they create, regardless of the account's own currency, and
when no Currency with code USD exists both operations raise inside the atomic
block — after validation passed — so no Transaction is created and no balance
is mutated (the operation returns an error and no post-state). -/
theorem deposit_withdraw_usd_currency (currencies : List Currency)
    (txns : List Txn) (acc : Account) (amount : Amount) :
    (findUSD currencies = none →
        (depositValidate acc amount = .ok () →
          deposit currencies acc amount = .error "Currency USD does not exist.")
      ∧ (withdrawValidate txns acc amount = .ok () →
          withdraw currencies txns acc amount = .error "Currency USD does not exist."))
    ∧ (∀ t a', deposit currencies acc amount = .ok (t, a') →
        t.currencyCode = some "USD")
    ∧ (∀ t a', withdraw currencies txns acc amount = .ok (t, a') →
        t.currencyCode = some "USD") := by
  refine ⟨fun hnone => ⟨?_, ?_⟩, ?_, ?_⟩
  · intro hv
    unfold deposit
    rw [hv]
    unfold depositCreate
    rw [hnone]
  · intro hv
    unfold withdraw
    rw [hv]
    unfold withdrawCreate
    rw [hnone]
  · intro t a' h
    obtain ⟨usd, _, hcode, _, _, _, _, ht, _⟩ := deposit_ok_inv h
    rw [ht, hcode]
  · intro t a' h
    obtain ⟨usd, _, hcode, _, _, _, _, _, ht, _⟩ := withdraw_ok_inv h
    rw [ht, hcode]

/-- Witness for the C10 theorem: with no USD currency row the deposit raises;
with the USD row present the created Transaction carries currency USD even
though nothing constrains the account currency. -/
theorem deposit_withdraw_usd_currency_witness :
    deposit [] accA 100 = .error "Currency USD does not exist."
    ∧ depTxnA.currencyCode = some "USD" := by
  constructor
  · exact ((deposit_withdraw_usd_currency [] [] accA 100).1 rfl).1
      (by norm_num [depositValidate, twoDp, accA])
  · exact (deposit_withdraw_usd_currency [usdCur] [] accA 100).2.1 depTxnA accA'
      (by norm_num [deposit, depositValidate, depositCreate, findUSD, twoDp,
        List.find?, accA, usdCur, depTxnA, accA'])

end Banking







